import Mathlib

/-!
# Verification of the receipt-scanning backend (`src/main.py`)

Shallow embedding of the single-file FastAPI service.  The service reads a
multipart upload, runs external OCR on the bytes, asks an external completion
service to extract items from the OCR text, decodes the completion content as
JSON and validates it against the `ParsedItem` schema.

External services (Google Vision `annotate_image`, OpenAI chat completions)
are modelled as oracle functions passed in as parameters; everything the
repository itself computes is embedded as executable Lean definitions.

Python exceptions are modelled by the `Except PyErr` monad: `HTTPException`
raised by the code, and uncaught exceptions (`json.JSONDecodeError`,
`TypeError`, `RuntimeError`) that escape the handler.
-/

/-- Outcome of a Python exception escaping a function, as relevant to the
service: an explicit `fastapi.HTTPException(status_code, detail)`, an uncaught
`json.JSONDecodeError`, an uncaught `TypeError` (e.g. `f(**x)` where `x` is not
a mapping, or iterating a non-iterable), or an uncaught `RuntimeError`. -/
inductive PyErr where
  | httpException (status : Nat) (detail : String)
  | jsonDecodeError
  | typeError
  | runtimeError (msg : String)
deriving Repr, DecidableEq

/-- JSON values as produced by Python's `json.loads`, restricted to the
fragment exercised by this service: numbers are modelled as integers
(fractional and exponent literals, and the non-standard `NaN`/`Infinity`
extensions, are outside the fragment any claim touches).  Objects keep their
key/value pairs in source order; duplicate keys resolve last-wins on lookup,
matching Python `dict` construction. -/
inductive Json where
  | null
  | bool (b : Bool)
  | num (n : Int)
  | str (s : String)
  | arr (elems : List Json)
  | obj (fields : List (String × Json))
deriving Repr, Inhabited

/-- JSON whitespace accepted by Python's decoder: space, tab, newline, carriage
return. -/
def isJsonWs (c : Char) : Bool :=
  c = ' ' || c = '\t' || c = '\n' || c = '\r'

/-- Drop leading JSON whitespace. -/
def skipWs : List Char → List Char
  | [] => []
  | c :: cs => if isJsonWs c then skipWs cs else c :: cs

/-- Value of a hex digit, if the character is one. -/
def hexVal (c : Char) : Option Nat :=
  if '0' ≤ c ∧ c ≤ '9' then some (c.toNat - '0'.toNat)
  else if 'a' ≤ c ∧ c ≤ 'f' then some (c.toNat - 'a'.toNat + 10)
  else if 'A' ≤ c ∧ c ≤ 'F' then some (c.toNat - 'A'.toNat + 10)
  else none

/-- Single-character JSON string escapes. -/
def escChar (c : Char) : Option Char :=
  if c = '"' then some '"'
  else if c = '\\' then some '\\'
  else if c = '/' then some '/'
  else if c = 'b' then some (Char.ofNat 8)
  else if c = 'f' then some (Char.ofNat 12)
  else if c = 'n' then some '\n'
  else if c = 'r' then some '\r'
  else if c = 't' then some '\t'
  else none

/-- Parse the body of a JSON string after the opening quote, up to and
including the closing quote.  Returns the decoded characters and the rest of
the input.  Unescaped control characters are rejected (Python's strict
mode). -/
def parseStrBody : List Char → Option (List Char × List Char)
  | [] => none
  | '"' :: cs => some ([], cs)
  | '\\' :: 'u' :: h1 :: h2 :: h3 :: h4 :: cs => do
    let n1 ← hexVal h1
    let n2 ← hexVal h2
    let n3 ← hexVal h3
    let n4 ← hexVal h4
    let (body, rest) ← parseStrBody cs
    some (Char.ofNat (((n1 * 16 + n2) * 16 + n3) * 16 + n4) :: body, rest)
  | '\\' :: e :: cs => do
    let ec ← escChar e
    let (body, rest) ← parseStrBody cs
    some (ec :: body, rest)
  | c :: cs =>
    if c.toNat < 32 then none
    else (parseStrBody cs).map fun p => (c :: p.1, p.2)

/-- Fold a digit run into a natural number. -/
def digitsToNat (ds : List Char) : Nat :=
  ds.foldl (fun acc d => acc * 10 + (d.toNat - '0'.toNat)) 0

/-- Parse a JSON integer literal (optional minus, digits, no leading zero on a
multi-digit run).  Fractional or exponent continuations are not consumed, so a
float literal makes the enclosing parse fail; no claim involves floats. -/
def parseIntLit (cs : List Char) : Option (Int × List Char) :=
  let (neg, cs') := match cs with
    | '-' :: rest => (true, rest)
    | _ => (false, cs)
  let ds := cs'.takeWhile Char.isDigit
  let rest := cs'.dropWhile Char.isDigit
  match ds with
  | [] => none
  | ['0'] => some (0, rest)
  | '0' :: _ :: _ => none
  | _ =>
    let n : Int := Int.ofNat (digitsToNat ds)
    some (if neg then -n else n, rest)

/-- Consume an expected literal keyword (`true`, `false`, `null` tails). -/
def expectChars : List Char → List Char → Option (List Char)
  | [], cs => some cs
  | e :: es, c :: cs => if c = e then expectChars es cs else none
  | _ :: _, [] => none

mutual

/-- Recursive-descent JSON value parser, fuelled to satisfy the termination
checker; `jsonLoads` supplies more than enough fuel for any input. -/
def parseVal : Nat → List Char → Option (Json × List Char)
  | 0, _ => none
  | fuel + 1, cs =>
    match skipWs cs with
    | [] => none
    | c :: rest =>
      if c = '{' then
        match skipWs rest with
        | '}' :: rest' => some (.obj [], rest')
        | rest' => do
          let (fields, r) ← parseMembers fuel rest'
          some (.obj fields, r)
      else if c = '[' then
        match skipWs rest with
        | ']' :: rest' => some (.arr [], rest')
        | rest' => do
          let (es, r) ← parseElems fuel rest'
          some (.arr es, r)
      else if c = '"' then
        (parseStrBody rest).map fun p => (.str (String.mk p.1), p.2)
      else if c = 't' then
        (expectChars ['r', 'u', 'e'] rest).map fun r => (.bool true, r)
      else if c = 'f' then
        (expectChars ['a', 'l', 's', 'e'] rest).map fun r => (.bool false, r)
      else if c = 'n' then
        (expectChars ['u', 'l', 'l'] rest).map fun r => (.null, r)
      else
        (parseIntLit (c :: rest)).map fun p => (.num p.1, p.2)

/-- One-or-more comma-separated array elements, up to and including `]`. -/
def parseElems : Nat → List Char → Option (List Json × List Char)
  | 0, _ => none
  | fuel + 1, cs => do
    let (v, r) ← parseVal fuel cs
    match skipWs r with
    | ',' :: r' => do
      let (vs, r'') ← parseElems fuel r'
      some (v :: vs, r'')
    | ']' :: r' => some ([v], r')
    | _ => none

/-- One-or-more comma-separated object members, up to and including `}`. -/
def parseMembers : Nat → List Char → Option (List (String × Json) × List Char)
  | 0, _ => none
  | fuel + 1, cs =>
    match skipWs cs with
    | '"' :: rest => do
      let (k, r) ← parseStrBody rest
      match skipWs r with
      | ':' :: r' => do
        let (v, r'') ← parseVal fuel r'
        match skipWs r'' with
        | ',' :: r3 => do
          let (ms, r4) ← parseMembers fuel r3
          some ((String.mk k, v) :: ms, r4)
        | '}' :: r3 => some ([(String.mk k, v)], r3)
        | _ => none
      | _ => none
    | _ => none

end

/-- Model of Python's `json.loads`: parse one JSON value and require only
whitespace to remain. -/
def jsonLoads (s : String) : Option Json :=
  match parseVal (2 * s.length + 2) s.data with
  | some (v, rest) => if skipWs rest = [] then some v else none
  | none => none

/-!
## The `ParsedItem` schema (`src/main.py` lines 27-30)

```python
class ParsedItem(BaseModel):
    name: str = Field(...)
    quantity: int = Field(..., ge=1)
    category: str = Field(..., pattern=r"^(Food|Household)$")
```
-/

/-- A validated receipt line item (`ParsedItem` pydantic model). -/
structure ParsedItem where
  name : String
  quantity : Int
  category : String
deriving Repr, DecidableEq

/-- Python `dict` lookup for a JSON object: last occurrence of a duplicated key
wins, as `dict` construction overwrites earlier keys. -/
def objGet (fields : List (String × Json)) (k : String) : Option Json :=
  fields.foldl (fun acc p => if p.1 = k then some p.2 else acc) none

/-- Pydantic v2 lax coercion of a JSON string to an `int` field: surrounding
whitespace is stripped, an optional sign is accepted, and the remainder must
be a non-empty digit run.  (Pydantic additionally coerces integral float-form
strings such as `"2.0"`; those lie outside the integer JSON fragment modelled
here, and no claim involves them.) -/
def strToInt (s : String) : Option Int :=
  let cs := ((s.data.dropWhile isJsonWs).reverse.dropWhile isJsonWs).reverse
  let (neg, ds) := match cs with
    | '-' :: rest => (true, rest)
    | '+' :: rest => (false, rest)
    | _ => (false, cs)
  if ds ≠ [] ∧ ds.all Char.isDigit then
    some (if neg then -Int.ofNat (digitsToNat ds) else Int.ofNat (digitsToNat ds))
  else none

/-- `ParsedItem(**item)` for a JSON object `item`: pydantic v2 field
validation in default (lax) mode.  `name` must be a string (numbers are not
coerced to `str`); `quantity` must be an integer — booleans are rejected for
`int` fields, but numeric strings are coerced via `strToInt` — and satisfy
`ge=1`; `category` must be a string fully matching `^(Food|Household)$`.
Extra keys are ignored (pydantic default).  On failure, returns a
human-readable description of the first failing field; the exact text of
pydantic's error message is abstracted. -/
def validateParsedItem (fields : List (String × Json)) : Except String ParsedItem := do
  let name ← match objGet fields "name" with
    | some (.str s) => Except.ok s
    | some _ => Except.error "name: input should be a valid string"
    | none => Except.error "name: field required"
  let quantity ← match objGet fields "quantity" with
    | some (.num n) =>
      if 1 ≤ n then Except.ok n
      else Except.error "quantity: input should be greater than or equal to 1"
    | some (.str s) =>
      match strToInt s with
      | some n =>
        if 1 ≤ n then Except.ok n
        else Except.error "quantity: input should be greater than or equal to 1"
      | none => Except.error "quantity: unable to parse string as an integer"
    | some _ => Except.error "quantity: input should be a valid integer"
    | none => Except.error "quantity: field required"
  let category ← match objGet fields "category" with
    | some (.str s) =>
      if s = "Food" ∨ s = "Household" then Except.ok s
      else Except.error "category: string should match pattern"
    | some _ => Except.error "category: input should be a valid string"
    | none => Except.error "category: field required"
  Except.ok ⟨name, quantity, category⟩

/-- Left-to-right evaluation of `[ParsedItem(**item) for item in data]` over
the elements of a decoded JSON array.  A `ValidationError` on an object
element is caught by the surrounding `except ValidationError` and re-raised as
`HTTPException(422, ...)`; a non-mapping element makes `ParsedItem(**item)`
raise an uncaught `TypeError`. -/
def validateElems : List Json → Except PyErr (List ParsedItem)
  | [] => .ok []
  | .obj fields :: rest =>
    match validateParsedItem fields with
    | .ok item => (validateElems rest).map fun items => item :: items
    | .error d => .error (.httpException 422 ("Parsed JSON validation failed: " ++ d))
  | _ :: _ => .error .typeError

/-- `[ParsedItem(**item) for item in data]` for an arbitrary decoded JSON
value `data` (`src/main.py` line 138).  Iterating a JSON array visits its
elements; iterating a Python `dict` visits its (string) keys, and
`ParsedItem(**key)` raises `TypeError` on the first one; iterating a string
visits its one-character strings, likewise a `TypeError`; numbers, booleans
and `None` are not iterable (`TypeError`).  Empty dicts and empty strings
iterate to the empty list. -/
def validateData : Json → Except PyErr (List ParsedItem)
  | .arr es => validateElems es
  | .obj [] => .ok []
  | .obj (_ :: _) => .error .typeError
  | .str s => if s = "" then .ok [] else .error .typeError
  | _ => .error .typeError

/-- Validation and non-emptiness check on the decoded JSON value
(`src/main.py` lines 136-145): run the comprehension, then raise
`HTTPException(204)` when nothing parsed. -/
def finishItems (data : Json) : Except PyErr (List ParsedItem) :=
  match validateData data with
  | .error e => .error e
  | .ok items =>
    if items = [] then .error (.httpException 204 "No items parsed from receipt.")
    else .ok items

/-- Python `content.find("[")`: index of the first occurrence, `-1` when
absent. -/
def pyFind (cs : List Char) (c : Char) : Int :=
  match cs.findIdx? (· = c) with
  | some i => Int.ofNat i
  | none => -1

/-- Python `content.rfind("]")`: index of the last occurrence, `-1` when
absent. -/
def pyRfind (cs : List Char) (c : Char) : Int :=
  match cs.reverse.findIdx? (· = c) with
  | some i => Int.ofNat (cs.length - 1 - i)
  | none => -1

/-- Python slice `content[start : end + 1]` for the in-range indices produced
by a successful find/rfind pair. -/
def pySlice (content : String) (s e : Int) : String :=
  String.mk ((content.data.drop s.toNat).take (e.toNat + 1 - s.toNat))

/-- JSON extraction and validation of the completion content (`src/main.py`
lines 124-145):

```python
try:
    data = json.loads(content)
except json.JSONDecodeError:
    start = content.find("[")
    end = content.rfind("]")
    if start != -1 and end != -1 and end > start:
        data = json.loads(content[start : end + 1])
    else:
        raise HTTPException(status_code=502, detail="Model did not return valid JSON.")
...
```

Note the inner `json.loads(content[start : end + 1])` runs inside the
`except` handler without its own `try`: if the bracket substring is itself
invalid JSON, the resulting `JSONDecodeError` propagates uncaught. -/
def parseItemsContent (content : String) : Except PyErr (List ParsedItem) :=
  match jsonLoads content with
  | some data => finishItems data
  | none =>
    if pyFind content.data '[' ≠ -1 ∧ pyRfind content.data ']' ≠ -1 ∧
        pyRfind content.data ']' > pyFind content.data '[' then
      match jsonLoads (pySlice content (pyFind content.data '[') (pyRfind content.data ']')) with
      | some data => finishItems data
      | none => .error .jsonDecodeError
    else .error (.httpException 502 "Model did not return valid JSON.")

/-- `parse_items_with_openai` (`src/main.py` lines 109-145).  The completion
request itself is external: `complete` maps the OCR text to the list of
choices of the service's response (each choice abbreviated to its message
content).  Line 122 substitutes the literal `"[]"` when the response has no
choices:

```python
content = resp.choices[0].message.content if resp.choices else "[]"
``` -/
def parse_items_with_openai (complete : String → List String) (ocr_text : String) :
    Except PyErr (List ParsedItem) :=
  parseItemsContent (match complete ocr_text with
    | [] => "[]"
    | c :: _ => c)

/-!
## OCR adapter (`src/main.py` lines 70-83) and upload endpoints (lines 150-194)
-/

/-- The `error` field of a Vision API response. -/
structure VisionError where
  message : String
deriving Repr, DecidableEq

/-- The slice of a Vision `AnnotateImageResponse` that `ocr_image_bytes`
inspects: the error message and, when present, the text of the full-text
annotation (`full_text_annotation.text` in the source; the field is named
`fullText` here because of Lean naming restrictions). -/
structure VisionResponse where
  error : VisionError
  fullText : Option String
deriving Repr, DecidableEq

/-- `ocr_image_bytes` (`src/main.py` lines 70-83).  The external
`client.annotate_image` call is the oracle `annotate`.

```python
resp = client.annotate_image(request=request)
if resp.error.message:
    raise RuntimeError(f"Vision API error: {resp.error.message}")
return resp.full_text_annotation.text if resp.full_text_annotation else ""
```

A non-empty error message (Python string truthiness) raises `RuntimeError`;
otherwise the annotation text is returned, or `""` when the response carries
no full-text annotation. -/
def ocr_image_bytes (annotate : List Nat → VisionResponse) (image_bytes : List Nat) :
    Except PyErr String :=
  let resp := annotate image_bytes
  if resp.error.message ≠ "" then
    .error (.runtimeError ("Vision API error: " ++ resp.error.message))
  else
    .ok (resp.fullText.getD "")

/-- A multipart upload as the handlers see it: the byte sequence the wrapped
file object yields.  `upload.file.read()` returns all of `contents` the first
time and `b""` once the stream is at EOF. -/
structure UploadFile where
  contents : List Nat
deriving Repr, DecidableEq

/-- `_common_scan_logic` (`src/main.py` lines 150-167), with the two external
services passed as oracles.

```python
if upload is None:
    raise HTTPException(status_code=400, detail="No file provided.")
if not upload.content_type or "image" not in upload.content_type:
    pass                                     # content type not validated
contents = upload.file.read() if hasattr(upload.file, "read") else None
if contents is None or contents == b"":
    contents = getattr(upload, "spool_max_size", None)  # fallback noop
    contents = contents or b""
if contents == b"":
    contents = upload.file.read()
if contents == b"":
    raise HTTPException(status_code=400, detail="Uploaded file was empty.")
ocr_text = ocr_image_bytes(contents)
return parse_items_with_openai(ocr_text)
```

`upload.file` always has `read`, so the first read yields the uploaded bytes.
Starlette's `UploadFile` has no `spool_max_size` attribute, so the `getattr`
fallback is the no-op its comment announces (`None or b""` is `b""`), and the
second `read()` happens with the stream at EOF, yielding `b""` again. -/
def common_scan_logic (annotate : List Nat → VisionResponse)
    (complete : String → List String) (upload : Option UploadFile) :
    Except PyErr (List ParsedItem) :=
  match upload with
  | none => .error (.httpException 400 "No file provided.")
  | some upload =>
    let contents := upload.contents
    let contents := if contents = [] then ([] : List Nat) else contents
    let contents := if contents = [] then ([] : List Nat) else contents
    if contents = [] then .error (.httpException 400 "Uploaded file was empty.")
    else
      match ocr_image_bytes annotate contents with
      | .error e => .error e
      | .ok ocr_text => parse_items_with_openai complete ocr_text

/-- Python `image or file` over the two optional upload parameters: an
`UploadFile` object is always truthy, so the first present field wins. -/
def pyOr (image file : Option UploadFile) : Option UploadFile :=
  match image with
  | some u => some u
  | none => file

/-- `POST /scan` handler (`src/main.py` lines 169-179). -/
def scan (annotate : List Nat → VisionResponse) (complete : String → List String)
    (image file : Option UploadFile) : Except PyErr (List ParsedItem) :=
  common_scan_logic annotate complete (pyOr image file)

/-- `POST /api/scan` handler (`src/main.py` lines 182-187). -/
def scan_api (annotate : List Nat → VisionResponse) (complete : String → List String)
    (image file : Option UploadFile) : Except PyErr (List ParsedItem) :=
  common_scan_logic annotate complete (pyOr image file)

/-- `POST /parse` handler (`src/main.py` lines 189-194). -/
def parse_alias (annotate : List Nat → VisionResponse) (complete : String → List String)
    (image file : Option UploadFile) : Except PyErr (List ParsedItem) :=
  common_scan_logic annotate complete (pyOr image file)

/-!
## Helper lemmas
-/

/-- A successful `finishItems` result passed the non-emptiness check. -/
theorem finishItems_ok_ne_nil {d : Json} {items : List ParsedItem}
    (h : finishItems d = Except.ok items) : items ≠ [] := by
  unfold finishItems at h
  split at h
  · simp at h
  · split at h
    · simp at h
    · injection h with h'
      subst h'
      assumption

/-- Every successful result of the content-extraction stage went through
`finishItems`, hence is non-empty. -/
theorem parseItemsContent_ok_ne_nil {content : String} {items : List ParsedItem}
    (h : parseItemsContent content = Except.ok items) : items ≠ [] := by
  unfold parseItemsContent at h
  split at h
  · exact finishItems_ok_ne_nil h
  · split at h
    · split at h
      · exact finishItems_ok_ne_nil h
      · simp at h
    · simp at h

/-- The comprehension succeeds pointwise on a list of valid objects,
producing one item per element in order. -/
theorem validateElems_of_forall₂ {es : List Json} {items : List ParsedItem}
    (h : List.Forall₂ (fun j it => ∃ fields, j = Json.obj fields ∧
      validateParsedItem fields = Except.ok it) es items) :
    validateElems es = Except.ok items := by
  induction h with
  | nil => rfl
  | cons hhead _ ih =>
    obtain ⟨fields, rfl, hval⟩ := hhead
    simp [validateElems, hval, ih, Except.map]

/-!
## Claims
-/

/-- **C1, counterexample.**  The claim says that whenever no valid JSON array
can be extracted — *including* when a bracket pair is found but the substring
between the brackets is not valid JSON — the operation fails with the 502
`HTTPException`.  On the content `"Result: [oops]"` direct decoding fails, the
bracket pair is found (`start = 8`, `end = 13`), but `json.loads("[oops]")`
raises a `JSONDecodeError` inside the `except` handler with no surrounding
`try`, so the request fails with the uncaught decode error (HTTP 500), not
with the 502 `HTTPException`. -/
theorem parseItemsContent_bracket_counterexample :
    parseItemsContent "Result: [oops]" = Except.error PyErr.jsonDecodeError ∧
    PyErr.jsonDecodeError ≠ PyErr.httpException 502 "Model did not return valid JSON." :=
  ⟨rfl, by decide⟩

/-- **C1, amended.**  `parse_items_with_openai` first attempts direct JSON
decoding of the full content; if that fails it locates the first `[` and the
last `]` and, when the last `]` comes after the first `[`, decodes that
substring instead.  When direct decoding fails and no such bracket pair
exists, it fails with the 502 `HTTPException`; but when a bracket pair is
found and the substring between the brackets is not valid JSON, the
`JSONDecodeError` raised inside the `except` handler propagates uncaught
(HTTP 500), not as the 502 `HTTPException`. -/
theorem parseItemsContent_parsing_policy (content : String) :
    (∀ data, jsonLoads content = some data →
      parseItemsContent content = finishItems data) ∧
    (∀ si ei : Int, jsonLoads content = none →
      pyFind content.data '[' = si → pyRfind content.data ']' = ei →
      si ≠ -1 → ei ≠ -1 → ei > si →
      (∀ d, jsonLoads (pySlice content si ei) = some d →
        parseItemsContent content = finishItems d) ∧
      (jsonLoads (pySlice content si ei) = none →
        parseItemsContent content = Except.error PyErr.jsonDecodeError)) ∧
    (jsonLoads content = none →
      ¬(pyFind content.data '[' ≠ -1 ∧ pyRfind content.data ']' ≠ -1 ∧
        pyRfind content.data ']' > pyFind content.data '[') →
      parseItemsContent content
        = Except.error (PyErr.httpException 502 "Model did not return valid JSON.")) := by
  refine ⟨?_, ?_, ?_⟩
  · intro data h
    unfold parseItemsContent
    rw [h]
  · intro si ei h hf hr hs he hgt
    subst hf
    subst hr
    constructor
    · intro d hd
      simp only [parseItemsContent, h]
      rw [if_pos ⟨hs, he, hgt⟩, hd]
    · intro hd
      simp only [parseItemsContent, h]
      rw [if_pos ⟨hs, he, hgt⟩, hd]
  · intro h hcond
    simp only [parseItemsContent, h]
    rw [if_neg hcond]

/-- **C1, witness** for the amended claim: the 502 branch fires on content
whose only `]` precedes its only `[`, and the uncaught-decode-error branch
fires on a bracket pair enclosing invalid JSON. -/
theorem parseItemsContent_parsing_policy_witness :
    parseItemsContent "]x[" = Except.error (PyErr.httpException 502 "Model did not return valid JSON.") ∧
    parseItemsContent "ok: [nope] end" = Except.error PyErr.jsonDecodeError := by
  constructor
  · exact (parseItemsContent_parsing_policy "]x[").2.2 rfl (by decide)
  · exact ((parseItemsContent_parsing_policy "ok: [nope] end").2.1 4 9 rfl rfl rfl
      (by decide) (by decide) (by decide)).2 rfl

/-- **C3.**  An upload that reads as zero bytes — under whichever field name
it arrived, hence via `pyOr image file` — fails with the 400 `HTTPException`
on every route.  Both service oracles are universally quantified and absent
from the conclusion: the outcome is the same whatever the OCR service would
answer, which is the shallow-embedding statement that `ocr_image_bytes` is
never invoked. -/
theorem empty_upload_rejected (annotate : List Nat → VisionResponse)
    (complete : String → List String) (image file : Option UploadFile) (u : UploadFile)
    (hu : pyOr image file = some u) (h : u.contents = []) :
    scan annotate complete image file
      = Except.error (PyErr.httpException 400 "Uploaded file was empty.") ∧
    scan_api annotate complete image file
      = Except.error (PyErr.httpException 400 "Uploaded file was empty.") ∧
    parse_alias annotate complete image file
      = Except.error (PyErr.httpException 400 "Uploaded file was empty.") := by
  have key : common_scan_logic annotate complete (some u)
      = Except.error (PyErr.httpException 400 "Uploaded file was empty.") := by
    unfold common_scan_logic
    simp [h]
  refine ⟨?_, ?_, ?_⟩
  · unfold scan
    rw [hu]
    exact key
  · unfold scan_api
    rw [hu]
    exact key
  · unfold parse_alias
    rw [hu]
    exact key

/-- **C3, witness**: a 0-byte upload under the `image` field is rejected with
the 400 error even though the OCR oracle would have returned text. -/
theorem empty_upload_rejected_witness :
    scan (fun _ => ⟨⟨""⟩, some "ghost text"⟩) (fun _ => ["[]"]) (some ⟨[]⟩) none
      = Except.error (PyErr.httpException 400 "Uploaded file was empty.") :=
  (empty_upload_rejected (fun _ => ⟨⟨""⟩, some "ghost text"⟩) (fun _ => ["[]"])
    (some ⟨[]⟩) none ⟨[]⟩ rfl rfl).1

/-- **C4.**  The `/scan`, `/api/scan` and `/parse` handlers are behaviorally
equivalent functions of the `(image, file)` upload pair: all three delegate to
`common_scan_logic` on `pyOr image file`, for any services and any inputs. -/
theorem scan_routes_equivalent (annotate : List Nat → VisionResponse)
    (complete : String → List String) (image file : Option UploadFile) :
    scan annotate complete image file = scan_api annotate complete image file ∧
    scan_api annotate complete image file = parse_alias annotate complete image file :=
  ⟨rfl, rfl⟩

/-- **C5.**  Content decoding to the empty JSON array yields the 204
`HTTPException` rather than an empty success, and every successfully returned
item list is non-empty. -/
theorem empty_array_yields_204 (content : String) (items : List ParsedItem) :
    (jsonLoads content = some (Json.arr []) →
      parseItemsContent content
        = Except.error (PyErr.httpException 204 "No items parsed from receipt.")) ∧
    (parseItemsContent content = Except.ok items → items ≠ []) := by
  constructor
  · intro h
    unfold parseItemsContent
    rw [h]
    exact rfl
  · exact parseItemsContent_ok_ne_nil

/-- **C5, witness**: the literal content `"[]"` produces the 204 error. -/
theorem empty_array_yields_204_witness :
    parseItemsContent "[]"
      = Except.error (PyErr.httpException 204 "No items parsed from receipt.") :=
  (empty_array_yields_204 "[]" []).1 rfl

/-- **C6.**  A non-empty upload is forwarded byte-for-byte: the handler's
result is exactly the OCR stage applied to `u.contents` (the bytes read from
the uploaded file), chained into the extraction stage. -/
theorem upload_bytes_forwarded (annotate : List Nat → VisionResponse)
    (complete : String → List String) (u : UploadFile) (h : u.contents ≠ []) :
    common_scan_logic annotate complete (some u)
      = (ocr_image_bytes annotate u.contents).bind
          (fun t => parse_items_with_openai complete t) := by
  unfold common_scan_logic
  cases hoc : ocr_image_bytes annotate u.contents <;> simp [h, hoc, Except.bind]

/-- **C6, witness**: the two bytes `[104, 105]` reach `ocr_image_bytes`
unmodified. -/
theorem upload_bytes_forwarded_witness :
    common_scan_logic (fun _ => ⟨⟨""⟩, some "receipt"⟩) (fun _ => []) (some ⟨[104, 105]⟩)
      = (ocr_image_bytes (fun _ => ⟨⟨""⟩, some "receipt"⟩) [104, 105]).bind
          (fun t => parse_items_with_openai (fun _ => []) t) :=
  upload_bytes_forwarded (fun _ => ⟨⟨""⟩, some "receipt"⟩) (fun _ => [])
    ⟨[104, 105]⟩ (by decide)

/-- **C7.**  A strict JSON array whose elements are objects validating
pointwise to `items` parses to exactly `items`: one `ParsedItem` per array
element, same field values (through `validateParsedItem`), in array order
(`List.Forall₂` is positional), with the lengths equal. -/
theorem valid_array_parsed_in_order (content : String) (es : List Json)
    (items : List ParsedItem)
    (h1 : jsonLoads content = some (Json.arr es))
    (h2 : List.Forall₂ (fun j it => ∃ fields, j = Json.obj fields ∧
      validateParsedItem fields = Except.ok it) es items)
    (h3 : items ≠ []) :
    parseItemsContent content = Except.ok items ∧ items.length = es.length := by
  have hv : validateElems es = Except.ok items := validateElems_of_forall₂ h2
  constructor
  · unfold parseItemsContent
    rw [h1]
    simp [finishItems, validateData, hv, h3]
  · exact h2.length_eq.symm

/-- **C7, witness**: the spec's two-item completion response parses to the two
items in order. -/
theorem valid_array_parsed_in_order_witness :
    parseItemsContent "[\x7b\"name\":\"Milk\",\"quantity\":2,\"category\":\"Food\"\x7d,\x7b\"name\":\"Paper Towels\",\"quantity\":1,\"category\":\"Household\"\x7d]"
      = Except.ok [⟨"Milk", 2, "Food"⟩, ⟨"Paper Towels", 1, "Household"⟩] ∧
    ([⟨"Milk", 2, "Food"⟩, ⟨"Paper Towels", 1, "Household"⟩] : List ParsedItem).length
      = [Json.obj [("name", Json.str "Milk"), ("quantity", Json.num 2),
            ("category", Json.str "Food")],
         Json.obj [("name", Json.str "Paper Towels"), ("quantity", Json.num 1),
            ("category", Json.str "Household")]].length :=
  valid_array_parsed_in_order
    "[\x7b\"name\":\"Milk\",\"quantity\":2,\"category\":\"Food\"\x7d,\x7b\"name\":\"Paper Towels\",\"quantity\":1,\"category\":\"Household\"\x7d]"
    [Json.obj [("name", Json.str "Milk"), ("quantity", Json.num 2),
        ("category", Json.str "Food")],
     Json.obj [("name", Json.str "Paper Towels"), ("quantity", Json.num 1),
        ("category", Json.str "Household")]]
    [⟨"Milk", 2, "Food"⟩, ⟨"Paper Towels", 1, "Household"⟩]
    rfl
    (List.Forall₂.cons ⟨_, rfl, rfl⟩ (List.Forall₂.cons ⟨_, rfl, rfl⟩ List.Forall₂.nil))
    (by decide)

/-- **C8.**  Upload-field resolution on every route: when both fields are
absent the request fails with the 400 "No file provided." error; when `image`
is supplied it wins regardless of `file`; when `image` is absent the `file`
field (present or not) is used. -/
theorem upload_field_precedence (annotate : List Nat → VisionResponse)
    (complete : String → List String) (image file : Option UploadFile) :
    (image = none → file = none →
      scan annotate complete image file
          = Except.error (PyErr.httpException 400 "No file provided.") ∧
      scan_api annotate complete image file
          = Except.error (PyErr.httpException 400 "No file provided.") ∧
      parse_alias annotate complete image file
          = Except.error (PyErr.httpException 400 "No file provided.")) ∧
    (∀ u, image = some u →
      scan annotate complete image file = common_scan_logic annotate complete (some u) ∧
      scan_api annotate complete image file = common_scan_logic annotate complete (some u) ∧
      parse_alias annotate complete image file
          = common_scan_logic annotate complete (some u)) ∧
    (image = none →
      scan annotate complete image file = common_scan_logic annotate complete file ∧
      scan_api annotate complete image file = common_scan_logic annotate complete file ∧
      parse_alias annotate complete image file = common_scan_logic annotate complete file) := by
  refine ⟨?_, ?_, ?_⟩
  · rintro rfl rfl
    exact ⟨rfl, rfl, rfl⟩
  · rintro u rfl
    exact ⟨rfl, rfl, rfl⟩
  · rintro rfl
    exact ⟨rfl, rfl, rfl⟩

/-- **C8, witness**: both fields absent gives the 400 error; with both fields
present, the `image` upload is the one processed. -/
theorem upload_field_precedence_witness :
    scan (fun _ => ⟨⟨""⟩, none⟩) (fun _ => []) none none
      = Except.error (PyErr.httpException 400 "No file provided.") ∧
    scan (fun _ => ⟨⟨""⟩, none⟩) (fun _ => []) (some ⟨[1]⟩) (some ⟨[2]⟩)
      = common_scan_logic (fun _ => ⟨⟨""⟩, none⟩) (fun _ => []) (some ⟨[1]⟩) :=
  ⟨((upload_field_precedence (fun _ => ⟨⟨""⟩, none⟩) (fun _ => []) none none).1
      rfl rfl).1,
   ((upload_field_precedence (fun _ => ⟨⟨""⟩, none⟩) (fun _ => [])
      (some ⟨[1]⟩) (some ⟨[2]⟩)).2.1 ⟨[1]⟩ rfl).1⟩

/-- **C9.**  The OCR adapter fails exactly when the service response carries a
non-empty error message (raising the `RuntimeError` built from it); with an
empty error message it returns the annotation text, or `""` when the response
has no full-text annotation. -/
theorem ocr_adapter_contract (annotate : List Nat → VisionResponse) (b : List Nat) :
    ((annotate b).error.message ≠ "" →
      ocr_image_bytes annotate b
        = Except.error (PyErr.runtimeError
            ("Vision API error: " ++ (annotate b).error.message))) ∧
    (∀ e, ocr_image_bytes annotate b = Except.error e → (annotate b).error.message ≠ "") ∧
    ((annotate b).error.message = "" → ∀ t, (annotate b).fullText = some t →
      ocr_image_bytes annotate b = Except.ok t) ∧
    ((annotate b).error.message = "" → (annotate b).fullText = none →
      ocr_image_bytes annotate b = Except.ok "") := by
  refine ⟨?_, ?_, ?_, ?_⟩
  · intro h
    unfold ocr_image_bytes
    rw [if_pos h]
  · intro e he h
    simp [ocr_image_bytes, h] at he
  · intro h t ht
    simp [ocr_image_bytes, h, ht]
  · intro h ht
    simp [ocr_image_bytes, h, ht]

/-- **C9, witness**: the three cases at concrete responses. -/
theorem ocr_adapter_contract_witness :
    ocr_image_bytes (fun _ => ⟨⟨"quota exceeded"⟩, none⟩) [0]
      = Except.error (PyErr.runtimeError "Vision API error: quota exceeded") ∧
    ocr_image_bytes (fun _ => ⟨⟨""⟩, some "TOTAL 12.99"⟩) [0] = Except.ok "TOTAL 12.99" ∧
    ocr_image_bytes (fun _ => ⟨⟨""⟩, none⟩) [0] = Except.ok "" := by
  refine ⟨?_, ?_, ?_⟩
  · exact (ocr_adapter_contract (fun _ => ⟨⟨"quota exceeded"⟩, none⟩) [0]).1 (by decide)
  · exact (ocr_adapter_contract (fun _ => ⟨⟨""⟩, some "TOTAL 12.99"⟩) [0]).2.2.1
      rfl "TOTAL 12.99" rfl
  · exact (ocr_adapter_contract (fun _ => ⟨⟨""⟩, none⟩) [0]).2.2.2 rfl rfl

/-- **C10.**  When the completion response has no choices, line 122
substitutes the literal `"[]"`, which decodes to the empty array and ends in
the 204 `HTTPException` — in particular never in the 502 or 422 errors. -/
theorem no_choices_yields_204 (complete : String → List String) (ocr_text : String)
    (h : complete ocr_text = []) :
    parse_items_with_openai complete ocr_text
      = Except.error (PyErr.httpException 204 "No items parsed from receipt.") := by
  unfold parse_items_with_openai
  rw [h]
  exact rfl

/-- **C10, witness**: a choiceless response on the spec's OCR text gives the
204 error. -/
theorem no_choices_yields_204_witness :
    parse_items_with_openai (fun _ => []) "Milk x2\nPaper Towels\n"
      = Except.error (PyErr.httpException 204 "No items parsed from receipt.") :=
  no_choices_yields_204 (fun _ => []) "Milk x2\nPaper Towels\n" rfl
